import Mathlib

/-!
Verification of the document-management subsystem of the legal-practice portal.

The repository contains two parallel implementations of the feature:

* Variant A: `src/backend/controllers/documentController.js` together with the
  mongoose model in `src/unnamed/part_003` (soft delete, `isDeleted` filters,
  `category`/`priority` fields).
* Variant B: the controller in `src/unnamed/part_002` (hard delete, no
  `isDeleted` filter, `documentType`/`lastAccessed` fields).  Its mongoose
  model and multer wiring are not in the source tree and are modelled from the
  spec where needed.

Machine integers are modelled as `Nat`, timestamps as `Nat`, MongoDB ObjectIds
as `Nat`, file bytes as `List Nat`.  Each HTTP handler becomes a pure function
from a state and request parameters to a result paired with the new state.
MongoDB guarantees `_id` uniqueness, so writing a record back by id
(`document.save()`) is modelled as a keyed map-replace and
`findByIdAndDelete` as a keyed removal.
-/

namespace DocPortal

/-- Checks whether the second list of characters occurs at the start of the first. -/
def startsWithChars : List Char → List Char → Bool
  | _, [] => true
  | [], _ :: _ => false
  | a :: as, b :: bs => a == b && startsWithChars as bs

/-- Checks whether `pat` occurs as a contiguous sublist of `hay`. -/
def hasSubChars : List Char → List Char → Bool
  | [], pat => pat.isEmpty
  | c :: t, pat => startsWithChars (c :: t) pat || hasSubChars t pat

/-- Case-insensitive substring test: the embedding of the `$regex`/`'i'`
queries of both controllers, for patterns without regex metacharacters. -/
def containsCI (hay pat : String) : Bool :=
  hasSubChars (hay.toList.map Char.toLower) (pat.toList.map Char.toLower)

/-- JavaScript truthiness for an optional string request parameter:
`undefined` and the empty string are both falsy. -/
def truthy : Option String → Option String
  | none => none
  | some s => if s == "" then none else some s

/-- The variant-B list handlers additionally skip a filter whose value is the
sentinel string "all". -/
def truthyNotAll : Option String → Option String
  | none => none
  | some s => if s == "" || s == "all" then none else some s

/-- One step of the frequency-count `reduce` in getDocumentStats. -/
def bumpCount (acc : List (String × Nat)) (k : String) : List (String × Nat) :=
  match acc with
  | [] => [(k, 1)]
  | (k', n) :: t => if k' == k then (k', n + 1) :: t else (k', n) :: bumpCount t k

/-- Frequency breakdown of a list of keys, as built by the `reduce` calls in
the stats aggregation. -/
def countBy (ks : List String) : List (String × Nat) :=
  ks.foldl bumpCount []

/-- On-disk file store: association list from stored path to byte content. -/
abbrev FileStore := List (String × List Nat)

def fsGet (fs : FileStore) (p : String) : Option (List Nat) :=
  (fs.find? (fun e => e.1 == p)).map (fun e => e.2)

def fsPut (fs : FileStore) (p : String) (b : List Nat) : FileStore :=
  (p, b) :: fs

def fsDelete (fs : FileStore) (p : String) : FileStore :=
  fs.filter (fun e => !(e.1 == p))

/-- Modelled from the spec: the LawyerClient model file is not under src.
Per the spec glossary a relationship "may be active, pending, or archived";
variant A's isArchived flag corresponds to status = "archived" and variant B
queries status directly. -/
structure LawyerClient where
  id : Nat
  lawyerId : Nat
  clientId : Nat
  status : String
  deriving DecidableEq

/-- An uploaded multipart file as multer presents it. -/
structure FileUpload where
  originalname : String
  mimetype : String
  size : Nat
  bytes : List Nat
  deriving DecidableEq

/-- The MIME allow-list from the multer fileFilter in documentController.js. -/
def allowedMimeTypes : List String :=
  [ "application/pdf",
    "application/msword",
    "application/vnd.openxmlformats-officedocument.wordprocessingml.document",
    "application/vnd.ms-excel",
    "application/vnd.openxmlformats-officedocument.spreadsheetml.sheet",
    "text/plain",
    "image/jpeg",
    "image/png",
    "image/gif",
    "image/webp",
    "application/zip",
    "application/x-rar-compressed" ]

/-- Structured error result: HTTP status code and message. -/
structure HErr where
  code : Nat
  msg : String
  deriving DecidableEq

/-! ## Variant A: documentController.js with the part_003 schema -/

/-- The Document entity of the part_003 mongoose schema (variant A). -/
structure DocumentA where
  id : Nat
  lawyerId : Nat
  clientId : Nat
  lawyerClientId : Nat
  title : String
  description : Option String
  fileName : String
  originalFileName : String
  filePath : String
  fileSize : Nat
  mimeType : String
  category : String
  status : String
  priority : String
  tags : List String
  uploadedBy : Nat
  reviewedBy : Option Nat
  reviewedAt : Option Nat
  reviewNotes : Option String
  isPublic : Bool
  isDeleted : Bool
  downloadCount : Nat
  lastDownloadedAt : Option Nat
  lastDownloadedBy : Option Nat
  createdAt : Nat
  deriving DecidableEq

/-- Persistent state seen by variant A: document collection, relationship
collection, file store. -/
structure StateA where
  documents : List DocumentA
  rels : List LawyerClient
  files : FileStore
  deriving DecidableEq

/-- Relationship lookup of variant A's uploadDocument:
LawyerClient.findOne with lawyerId, clientId, isArchived false. -/
def findRelA (s : StateA) (lawyerId clientId : Nat) : Option LawyerClient :=
  s.rels.find? (fun r =>
    r.lawyerId == lawyerId && r.clientId == clientId && !(r.status == "archived"))

/-- Document lookup shared by variant A's handlers:
Document.findOne with the id, the calling lawyer, and isDeleted false. -/
def findDocA (docs : List DocumentA) (lawyerId i : Nat) : Option DocumentA :=
  docs.find? (fun d => d.id == i && d.lawyerId == lawyerId && !d.isDeleted)

/-- document.save(): MongoDB _id is unique, so writing the record back is a
keyed replacement. -/
def saveDocA (docs : List DocumentA) (d : DocumentA) : List DocumentA :=
  docs.map (fun x => if x.id == d.id then d else x)

/-- The Document row built by variant A's Document.create call.  The caller
passes no isPublic and no isDeleted, so the schema defaults false apply;
status defaults to "pending_review" and downloadCount to 0. -/
def mkDocA (lawyerId clientId relId newId : Nat) (title : String)
    (description : Option String) (category priority tagsCsv : Option String)
    (f : FileUpload) (storedName : String) (now : Nat) : DocumentA :=
  { id := newId, lawyerId := lawyerId, clientId := clientId,
    lawyerClientId := relId,
    title := title, description := description,
    fileName := storedName, originalFileName := f.originalname,
    filePath := storedName, fileSize := f.size, mimeType := f.mimetype,
    category := (truthy category).getD "other",
    status := "pending_review",
    priority := (truthy priority).getD "medium",
    tags := match truthy tagsCsv with
      | none => []
      | some t => (t.splitOn ",").map (fun x => x.trim),
    uploadedBy := lawyerId,
    reviewedBy := none, reviewedAt := none, reviewNotes := none,
    isPublic := false, isDeleted := false, downloadCount := 0,
    lastDownloadedAt := none, lastDownloadedBy := none, createdAt := now }

/-- Variant A uploadDocument.  The relationship check runs before
upload.single is invoked, so on a 404 no file has been written; on a failed
Document.create the handler unlinks the stored file before surfacing the
error.  The dbFails flag injects a database-write failure; the ignored
isPublicReq argument models a caller-supplied visibility value, which the
handler never reads from the body. -/
def uploadA (s : StateA) (lawyerId clientId : Nat) (title : String)
    (description : Option String) (category priority tagsCsv : Option String)
    (_isPublicReq : Option Bool) (file : Option FileUpload) (storedName : String)
    (newId : Nat) (dbFails : Bool) (now : Nat) :
    Except HErr DocumentA × StateA :=
  match findRelA s lawyerId clientId with
  | none => (Except.error ⟨404, "Client relationship not found"⟩, s)
  | some rel =>
    match file with
    | none => (Except.error ⟨400, "No file uploaded"⟩, s)
    | some f =>
      if !(allowedMimeTypes.contains f.mimetype) then
        (Except.error ⟨400, "Invalid file type"⟩, s)
      else if f.size > 50 * 1024 * 1024 then
        (Except.error ⟨400, "File too large"⟩, s)
      else
        let s1 : StateA := { s with files := fsPut s.files storedName f.bytes }
        if dbFails then
          (Except.error ⟨500, "Failed to upload document"⟩,
            { s1 with files := fsDelete s1.files storedName })
        else
          let d := mkDocA lawyerId clientId rel.id newId title description
            category priority tagsCsv f storedName now
          (Except.ok d, { s1 with documents := d :: s1.documents })

/-- Variant A getDocumentById: pure read, no side effect. -/
def getByIdA (s : StateA) (lawyerId i : Nat) : Except HErr DocumentA × StateA :=
  match findDocA s.documents lawyerId i with
  | none => (Except.error ⟨404, "Document not found"⟩, s)
  | some d => (Except.ok d, s)

/-- The find/countDocuments query predicate of variant A's getDocuments:
scoped to the lawyer, non-deleted, optional client/category/status/priority
filters, free-text search over title, description and tags. -/
def queryA (lawyerId : Nat) (clientId : Option Nat)
    (category status priority search : Option String) (d : DocumentA) : Bool :=
  d.lawyerId == lawyerId && !d.isDeleted
  && (match clientId with | none => true | some c => d.clientId == c)
  && (match truthy category with | none => true | some c => d.category == c)
  && (match truthy status with | none => true | some c => d.status == c)
  && (match truthy priority with | none => true | some c => d.priority == c)
  && (match truthy search with
      | none => true
      | some q => containsCI d.title q
          || (match d.description with
              | none => false
              | some ds => containsCI ds q)
          || d.tags.any (fun t => containsCI t q))

/-- The full result set of variant A's getDocuments query, before the
skip/limit pagination slice. -/
def filteredA (s : StateA) (lawyerId : Nat) (clientId : Option Nat)
    (category status priority search : Option String) : List DocumentA :=
  s.documents.filter (queryA lawyerId clientId category status priority search)

/-- The pagination block of a list response. -/
structure PageInfo where
  currentPage : Nat
  totalPages : Nat
  totalItems : Nat
  hasNext : Bool
  hasPrev : Bool
  deriving DecidableEq

/-- getDocumentStats result shape (part_003 static). -/
structure DocStats where
  totalDocuments : Nat
  totalSize : Nat
  byStatus : List (String × Nat)
  byCategory : List (String × Nat)
  deriving DecidableEq

/-- The part_003 getDocumentStats aggregation: lawyer-scoped, non-deleted,
optionally client-scoped; count, byte sum, status and category breakdowns. -/
def statsA (docs : List DocumentA) (lawyerId : Nat) (clientId : Option Nat) :
    DocStats :=
  let m := docs.filter (fun d =>
    d.lawyerId == lawyerId && !d.isDeleted
      && (match clientId with | none => true | some c => d.clientId == c))
  { totalDocuments := m.length,
    totalSize := (m.map (fun d => d.fileSize)).sum,
    byStatus := countBy (m.map (fun d => d.status)),
    byCategory := countBy (m.map (fun d => d.category)) }

/-- Math.ceil(total / limit) on naturals, for limit at least 1. -/
def ceilDiv (a b : Nat) : Nat := (a + b - 1) / b

/-- A variant-A list response. -/
structure ListResA where
  documents : List DocumentA
  pagination : PageInfo
  stats : DocStats
  deriving DecidableEq

/-- Variant A getDocuments.  The source also sorts by an allow-listed field
before slicing; sorting permutes the filtered list and no property proved
below depends on the order, so the sort is the identity permutation here. -/
def listA (s : StateA) (lawyerId : Nat) (clientId : Option Nat)
    (category status priority search : Option String) (page limit : Nat) :
    ListResA × StateA :=
  let fl := filteredA s lawyerId clientId category status priority search
  let skip := (page - 1) * limit
  let docs := (fl.drop skip).take limit
  let total := fl.length
  ({ documents := docs,
     pagination :=
       { currentPage := page,
         totalPages := ceilDiv total limit,
         totalItems := total,
         hasNext := decide (skip + docs.length < total),
         hasPrev := decide (1 < page) },
     stats := statsA s.documents lawyerId clientId }, s)

/-- Variant A downloadDocument: scoped non-deleted lookup, file-existence
check, then downloadCount increment and last-download bookkeeping before the
bytes are streamed.  The ok payload is the content metadata (the saved
record) together with the file bytes. -/
def downloadA (s : StateA) (lawyerId i now : Nat) :
    Except HErr (DocumentA × List Nat) × StateA :=
  match findDocA s.documents lawyerId i with
  | none => (Except.error ⟨404, "Document not found"⟩, s)
  | some d =>
    match fsGet s.files d.filePath with
    | none => (Except.error ⟨404, "Document file not found"⟩, s)
    | some bytes =>
      let d2 := { d with downloadCount := d.downloadCount + 1,
                         lastDownloadedAt := some now,
                         lastDownloadedBy := some lawyerId }
      (Except.ok (d2, bytes), { s with documents := saveDocA s.documents d2 })

/-- Variant A updateDocument.  Field updates follow the source's truthiness
checks; the review guard is embedded as written in the source, where
document.status has already been overwritten before it is compared, followed
by the part_003 pre-save hook (status modified to "reviewed" and reviewedAt
still unset). -/
def updateA (s : StateA) (lawyerId i : Nat)
    (title description category priority tagsCsv status reviewNotes : Option String)
    (now : Nat) : Except HErr DocumentA × StateA :=
  match findDocA s.documents lawyerId i with
  | none => (Except.error ⟨404, "Document not found"⟩, s)
  | some d0 =>
    let d1 : DocumentA := { d0 with
      title := (truthy title).getD d0.title,
      description := match description with
        | none => d0.description
        | some ds => some ds,
      category := (truthy category).getD d0.category,
      priority := (truthy priority).getD d0.priority,
      tags := match truthy tagsCsv with
        | none => d0.tags
        | some t => (t.splitOn ",").map (fun x => x.trim),
      status := (truthy status).getD d0.status,
      reviewNotes := match reviewNotes with
        | none => d0.reviewNotes
        | some r => some r }
    let d2 := if truthy status == some "reviewed" && !(d1.status == "reviewed")
      then { d1 with reviewedBy := some lawyerId, reviewedAt := some now }
      else d1
    let statusModified := match truthy status with
      | none => false
      | some st => !(st == d0.status)
    let d3 := if statusModified && d2.status == "reviewed" && d2.reviewedAt == none
      then { d2 with reviewedAt := some now }
      else d2
    (Except.ok d3, { s with documents := saveDocA s.documents d3 })

/-- Variant A deleteDocument: scoped non-deleted lookup, then soft delete. -/
def deleteA (s : StateA) (lawyerId i : Nat) : Except HErr Unit × StateA :=
  match findDocA s.documents lawyerId i with
  | none => (Except.error ⟨404, "Document not found"⟩, s)
  | some d =>
    (Except.ok (), { s with documents := saveDocA s.documents { d with isDeleted := true } })

/-! ## Variant B: the controller in part_002 -/

/-- Modelled from the spec: the variant-B Document model file is not under
src.  Spec sections 3 and 9 give its shape: documentType enum with default
"other", status enum new / reviewed / needs_attention / approved / rejected
with default "new", a last-accessed timestamp bumped on plain fetch,
isPublic defaulting to false, downloadCount defaulting to 0, and no
soft-delete flag (variant B deletes records physically). -/
structure DocumentB where
  id : Nat
  lawyerId : Nat
  clientId : Nat
  title : String
  description : Option String
  fileName : String
  originalFileName : String
  filePath : String
  fileSize : Nat
  mimeType : String
  documentType : String
  status : String
  tags : List String
  uploadedBy : Nat
  reviewedBy : Option Nat
  reviewedAt : Option Nat
  reviewNotes : Option String
  isPublic : Bool
  downloadCount : Nat
  lastAccessed : Option Nat
  createdAt : Nat
  deriving DecidableEq

/-- Persistent state seen by variant B. -/
structure StateB where
  documents : List DocumentB
  rels : List LawyerClient
  files : FileStore
  deriving DecidableEq

/-- Relationship lookup of variant B's uploadDocument:
LawyerClient.findOne with status active or pending. -/
def findRelB (rels : List LawyerClient) (lawyerId clientId : Nat) :
    Option LawyerClient :=
  rels.find? (fun r => r.lawyerId == lawyerId && r.clientId == clientId
    && (r.status == "active" || r.status == "pending"))

/-- Document lookup of variant B's handlers: Document.findOne with the id and
the calling lawyer (no isDeleted filter exists in this variant). -/
def findDocB (docs : List DocumentB) (lawyerId i : Nat) : Option DocumentB :=
  docs.find? (fun d => d.id == i && d.lawyerId == lawyerId)

/-- document.save() for variant B, keyed on the unique _id. -/
def saveDocB (docs : List DocumentB) (d : DocumentB) : List DocumentB :=
  docs.map (fun x => if x.id == d.id then d else x)

/-- Modelled from the spec: the multer middleware wiring for the part_002
handler is not under src.  Per spec sections 4.1 and 4.3 it stores the file
before the handler runs, rejecting disallowed MIME types and payloads over
the 10MB cap of this variant; on rejection the handler sees no req.file. -/
def multerB (fs : FileStore) (file : Option FileUpload) (storedName : String) :
    Option (FileUpload × String) × FileStore :=
  match file with
  | none => (none, fs)
  | some f =>
    if !(allowedMimeTypes.contains f.mimetype) then (none, fs)
    else if f.size > 10 * 1024 * 1024 then (none, fs)
    else (some (f, storedName), fsPut fs storedName f.bytes)

/-- The Document row built by the part_002 Document.create call: isPublic is
hard-coded to false, documentType defaults to "other" via the body
destructuring, status and downloadCount take their schema defaults. -/
def mkDocB (lawyerId clientId newId : Nat) (title : String)
    (description documentType : Option String) (tags : List String)
    (f : FileUpload) (storedName : String) (now : Nat) : DocumentB :=
  { id := newId, lawyerId := lawyerId, clientId := clientId,
    title := title, description := description,
    fileName := storedName, originalFileName := f.originalname,
    filePath := storedName, fileSize := f.size, mimeType := f.mimetype,
    documentType := documentType.getD "other",
    status := "new", tags := tags, uploadedBy := lawyerId,
    reviewedBy := none, reviewedAt := none, reviewNotes := none,
    isPublic := false, downloadCount := 0, lastAccessed := none,
    createdAt := now }

/-- The part_002 uploadDocument handler body, run after the upload middleware;
reqFile is req.file (the already-stored file), and the ignored isPublicReq
argument models a caller-supplied visibility value, which is overridden by
the hard-coded isPublic false in the create call.  The dbFails flag injects a
Document.create failure: the catch block only logs and responds 500, with no
compensating file delete. -/
def uploadBHandler (s : StateB) (lawyerId clientId : Nat) (title : String)
    (description : Option String) (documentType : Option String)
    (tags : List String) (_isPublicReq : Option Bool)
    (reqFile : Option (FileUpload × String)) (newId : Nat) (dbFails : Bool)
    (now : Nat) : Except HErr DocumentB × StateB :=
  match findRelB s.rels lawyerId clientId with
  | none => (Except.error ⟨404, "Client relationship not found or inactive"⟩, s)
  | some _ =>
    match reqFile with
    | none => (Except.error ⟨400, "No file uploaded"⟩, s)
    | some (f, storedName) =>
      if dbFails then
        (Except.error ⟨500, "Failed to upload document"⟩, s)
      else
        let d := mkDocB lawyerId clientId newId title description documentType
          tags f storedName now
        (Except.ok d, { s with documents := d :: s.documents })

/-- A full variant-B create request: the upload middleware stores the file,
then the part_002 handler runs. -/
def uploadB (s : StateB) (lawyerId clientId : Nat) (title : String)
    (description : Option String) (documentType : Option String)
    (tags : List String) (isPublicReq : Option Bool) (file : Option FileUpload)
    (storedName : String) (newId : Nat) (dbFails : Bool) (now : Nat) :
    Except HErr DocumentB × StateB :=
  let r := multerB s.files file storedName
  uploadBHandler { s with files := r.2 } lawyerId clientId title description
    documentType tags isPublicReq r.1 newId dbFails now

/-- Variant B getDocumentById: bumps lastAccessed as a side effect of a plain
read, then returns the record. -/
def getByIdB (s : StateB) (lawyerId i now : Nat) :
    Except HErr DocumentB × StateB :=
  match findDocB s.documents lawyerId i with
  | none => (Except.error ⟨404, "Document not found"⟩, s)
  | some d =>
    let d2 := { d with lastAccessed := some now }
    (Except.ok d2, { s with documents := saveDocB s.documents d2 })

/-- The find/countDocuments query predicate of variant B's
getLawyerDocuments: lawyer-scoped, optional status/documentType/clientId
filters with the "all" sentinel, free-text search over title, description
and originalFileName.  There is no isDeleted filter in this variant. -/
def queryB (lawyerId : Nat) (clientId : Option Nat)
    (status documentType search : Option String) (d : DocumentB) : Bool :=
  d.lawyerId == lawyerId
  && (match truthyNotAll status with | none => true | some v => d.status == v)
  && (match truthyNotAll documentType with
      | none => true
      | some v => d.documentType == v)
  && (match clientId with | none => true | some c => d.clientId == c)
  && (match truthy search with
      | none => true
      | some q => containsCI d.title q
          || (match d.description with
              | none => false
              | some ds => containsCI ds q)
          || containsCI d.originalFileName q)

/-- The full result set of variant B's getLawyerDocuments query, before the
pagination slice. -/
def filteredB (s : StateB) (lawyerId : Nat) (clientId : Option Nat)
    (status documentType search : Option String) : List DocumentB :=
  s.documents.filter (queryB lawyerId clientId status documentType search)

/-- Variant-B stats shape: status and documentType breakdowns. -/
structure DocStatsB where
  totalDocuments : Nat
  totalSize : Nat
  byStatus : List (String × Nat)
  byDocumentType : List (String × Nat)
  deriving DecidableEq

/-- Modelled from the spec: getLawyerDocumentStats / getClientDocumentStats
live on the variant-B model, which is not under src.  Per spec sections 3 and
4.1 they aggregate count, byte-size sum and status/type breakdowns over the
lawyer's (optionally client-scoped) documents. -/
def statsB (docs : List DocumentB) (lawyerId : Nat) (clientId : Option Nat) :
    DocStatsB :=
  let m := docs.filter (fun d => d.lawyerId == lawyerId
    && (match clientId with | none => true | some c => d.clientId == c))
  { totalDocuments := m.length,
    totalSize := (m.map (fun d => d.fileSize)).sum,
    byStatus := countBy (m.map (fun d => d.status)),
    byDocumentType := countBy (m.map (fun d => d.documentType)) }

/-- A variant-B list response. -/
structure ListResB where
  documents : List DocumentB
  pagination : PageInfo
  stats : DocStatsB
  deriving DecidableEq

/-- Variant B getLawyerDocuments.  As for variant A, the allow-listed sort is
the identity permutation here since no property proved below depends on the
order of the returned page. -/
def listB (s : StateB) (lawyerId : Nat) (clientId : Option Nat)
    (status documentType search : Option String) (page limit : Nat) :
    ListResB × StateB :=
  let fl := filteredB s lawyerId clientId status documentType search
  let skip := (page - 1) * limit
  let docs := (fl.drop skip).take limit
  let total := fl.length
  ({ documents := docs,
     pagination :=
       { currentPage := page,
         totalPages := ceilDiv total limit,
         totalItems := total,
         hasNext := decide (skip + docs.length < total),
         hasPrev := decide (1 < page) },
     stats := statsB s.documents lawyerId none }, s)

/-- Variant B updateDocument: presence-checked field updates, then the status
branch, which compares the incoming status against the document's status
before any assignment and records reviewer, review time and (when provided)
review notes on entry to a review-terminal status. -/
def updateB (s : StateB) (lawyerId i : Nat)
    (title description documentType : Option String)
    (tags : Option (List String)) (status reviewNotes : Option String)
    (now : Nat) : Except HErr DocumentB × StateB :=
  match findDocB s.documents lawyerId i with
  | none => (Except.error ⟨404, "Document not found"⟩, s)
  | some d0 =>
    let d1 : DocumentB := { d0 with
      title := title.getD d0.title,
      description := match description with
        | none => d0.description
        | some ds => some ds,
      documentType := documentType.getD d0.documentType,
      tags := tags.getD d0.tags }
    let d2 :=
      match status with
      | none => d1
      | some st =>
        if st == d0.status then d1
        else
          let dA := { d1 with status := st }
          if st == "reviewed" || st == "approved" || st == "rejected" then
            { dA with
              reviewedBy := some lawyerId,
              reviewedAt := some now,
              reviewNotes := (match truthy reviewNotes with
                | none => dA.reviewNotes
                | some r => some r) }
          else dA
    (Except.ok d2, { s with documents := saveDocB s.documents d2 })

/-- Variant B deleteDocument: scoped lookup, best-effort file unlink, then
findByIdAndDelete, which removes the single record with that unique _id. -/
def deleteB (s : StateB) (lawyerId i : Nat) : Except HErr Unit × StateB :=
  match findDocB s.documents lawyerId i with
  | none => (Except.error ⟨404, "Document not found"⟩, s)
  | some d =>
    (Except.ok (),
      { s with files := fsDelete s.files d.filePath,
               documents := s.documents.filter (fun x => !(x.id == i)) })

/-- Variant B downloadDocument: scoped lookup, file-existence check, then
downloadCount increment and lastAccessed bump before the bytes are sent. -/
def downloadB (s : StateB) (lawyerId i now : Nat) :
    Except HErr (DocumentB × List Nat) × StateB :=
  match findDocB s.documents lawyerId i with
  | none => (Except.error ⟨404, "Document not found"⟩, s)
  | some d =>
    match fsGet s.files d.filePath with
    | none => (Except.error ⟨404, "File not found on server"⟩, s)
    | some bytes =>
      let d2 := { d with downloadCount := d.downloadCount + 1,
                         lastAccessed := some now }
      (Except.ok (d2, bytes), { s with documents := saveDocB s.documents d2 })

/-- The search predicate written from the spec's words, for the refinement
check of the search claim: title, description, original filename, or tags,
case-insensitive substring. -/
def specSearchMatchA (q : String) (d : DocumentA) : Bool :=
  containsCI d.title q
  || (match d.description with | none => false | some ds => containsCI ds q)
  || containsCI d.originalFileName q
  || d.tags.any (fun t => containsCI t q)

def c1fileEx : FileUpload :=
  { originalname := "a.pdf", mimetype := "application/pdf", size := 4,
    bytes := [1, 2, 3, 4] }

def c1stA : StateA :=
  { documents := [], rels := [⟨5, 1, 2, "active"⟩], files := [] }

def c4fileEx : FileUpload :=
  { originalname := "b.pdf", mimetype := "application/pdf", size := 2,
    bytes := [9, 9] }

/-- Lawyer 1 has an active relationship with client 3; lawyer 2 has none. -/
def c4stB0 : StateB :=
  { documents := [], rels := [⟨7, 1, 3, "active"⟩], files := [] }

/-- The state after lawyer 1 uploads two documents for client 3. -/
def c4stB : StateB :=
  (uploadB
    (uploadB c4stB0 1 3 "First" none none [] none (some c4fileEx) "d1.pdf" 11
      false 100).2
    1 3 "Second" none none [] none (some c4fileEx) "d2.pdf" 12 false 101).2

/-- A minimal variant-A document with the given id, owned by lawyer 1. -/
def c9doc (n : Nat) : DocumentA :=
  { id := n, lawyerId := 1, clientId := 2, lawyerClientId := 3,
    title := "t", description := none, fileName := "f", originalFileName := "f",
    filePath := "f", fileSize := 1, mimeType := "application/pdf",
    category := "other", status := "pending_review", priority := "medium",
    tags := [], uploadedBy := 1, reviewedBy := none, reviewedAt := none,
    reviewNotes := none, isPublic := false, isDeleted := false,
    downloadCount := 0, lastDownloadedAt := none, lastDownloadedBy := none,
    createdAt := n }

/-- 45 documents owned by lawyer 1, for the concrete pagination instance. -/
def c9stA : StateA :=
  { documents := (List.range 45).map c9doc, rels := [], files := [] }

def c10docA : DocumentA :=
  { id := 1, lawyerId := 1, clientId := 2, lawyerClientId := 3,
    title := "t", description := none, fileName := "f", originalFileName := "f",
    filePath := "f", fileSize := 1, mimeType := "application/pdf",
    category := "other", status := "pending_review", priority := "medium",
    tags := [], uploadedBy := 1, reviewedBy := none, reviewedAt := none,
    reviewNotes := none, isPublic := false, isDeleted := false,
    downloadCount := 0, lastDownloadedAt := none, lastDownloadedBy := none,
    createdAt := 0 }

def c10stA : StateA := { documents := [c10docA], rels := [], files := [] }

def c10docB : DocumentB :=
  { id := 1, lawyerId := 1, clientId := 2,
    title := "t", description := none, fileName := "f", originalFileName := "f",
    filePath := "f", fileSize := 1, mimeType := "application/pdf",
    documentType := "other", status := "new", tags := [], uploadedBy := 1,
    reviewedBy := none, reviewedAt := none, reviewNotes := none,
    isPublic := false, downloadCount := 0, lastAccessed := none,
    createdAt := 0 }

def c10stB : StateB :=
  { documents := [c10docB], rels := [], files := [("f", [1, 2])] }

def c2docB : DocumentB :=
  { id := 1, lawyerId := 1, clientId := 2,
    title := "t", description := none, fileName := "g", originalFileName := "g",
    filePath := "g", fileSize := 1, mimeType := "application/pdf",
    documentType := "other", status := "new", tags := [], uploadedBy := 1,
    reviewedBy := none, reviewedAt := none, reviewNotes := none,
    isPublic := false, downloadCount := 0, lastAccessed := none,
    createdAt := 0 }

def c2stB : StateB :=
  { documents := [c2docB], rels := [], files := [("g", [5])] }

/-- The download bookkeeping applied by variant A's downloadDocument. -/
def dlBumpA (d : DocumentA) (L now : Nat) : DocumentA :=
  { d with downloadCount := d.downloadCount + 1,
           lastDownloadedAt := some now, lastDownloadedBy := some L }

/-- The download bookkeeping applied by variant B's downloadDocument. -/
def dlBumpB (d : DocumentB) (now : Nat) : DocumentB :=
  { d with downloadCount := d.downloadCount + 1, lastAccessed := some now }

def c7docA : DocumentA :=
  { id := 1, lawyerId := 1, clientId := 2, lawyerClientId := 3,
    title := "t", description := none, fileName := "h", originalFileName := "h",
    filePath := "h", fileSize := 2, mimeType := "application/pdf",
    category := "other", status := "pending_review", priority := "medium",
    tags := [], uploadedBy := 1, reviewedBy := none, reviewedAt := none,
    reviewNotes := none, isPublic := false, isDeleted := false,
    downloadCount := 0, lastDownloadedAt := none, lastDownloadedBy := none,
    createdAt := 0 }

def c7stA : StateA :=
  { documents := [c7docA], rels := [], files := [("h", [7, 8])] }

def c3docA : DocumentA :=
  { id := 1, lawyerId := 7, clientId := 2, lawyerClientId := 3,
    title := "t", description := none, fileName := "f", originalFileName := "f",
    filePath := "f", fileSize := 1, mimeType := "application/pdf",
    category := "other", status := "pending_review", priority := "medium",
    tags := [], uploadedBy := 7, reviewedBy := none, reviewedAt := none,
    reviewNotes := none, isPublic := false, isDeleted := false,
    downloadCount := 0, lastDownloadedAt := none, lastDownloadedBy := none,
    createdAt := 0 }

def c3stA : StateA := { documents := [c3docA], rels := [], files := [] }

def c3docB : DocumentB :=
  { id := 1, lawyerId := 7, clientId := 2,
    title := "t", description := none, fileName := "f", originalFileName := "f",
    filePath := "f", fileSize := 1, mimeType := "application/pdf",
    documentType := "other", status := "new", tags := [], uploadedBy := 7,
    reviewedBy := none, reviewedAt := none, reviewNotes := none,
    isPublic := false, downloadCount := 0, lastAccessed := none,
    createdAt := 0 }

def c3stB : StateB := { documents := [c3docB], rels := [], files := [] }

def c5fileEx : FileUpload :=
  { originalname := "c.pdf", mimetype := "application/pdf", size := 3,
    bytes := [1, 2, 3] }

def c5stB : StateB :=
  { documents := [], rels := [⟨4, 1, 2, "active"⟩], files := [] }

def c5stA : StateA :=
  { documents := [], rels := [⟨4, 1, 2, "active"⟩], files := [] }

def c6fileEx : FileUpload :=
  { originalname := "d.pdf", mimetype := "application/pdf", size := 2,
    bytes := [6, 6] }

def c6stB : StateB := { documents := [], rels := [], files := [] }

def c6stA : StateA := { documents := [], rels := [], files := [] }

def c8docA : DocumentA :=
  { id := 1, lawyerId := 1, clientId := 2, lawyerClientId := 3,
    title := "notes", description := none, fileName := "f",
    originalFileName := "contract.pdf", filePath := "f", fileSize := 1,
    mimeType := "application/pdf", category := "other",
    status := "pending_review", priority := "medium", tags := [],
    uploadedBy := 1, reviewedBy := none, reviewedAt := none,
    reviewNotes := none, isPublic := false, isDeleted := false,
    downloadCount := 0, lastDownloadedAt := none, lastDownloadedBy := none,
    createdAt := 0 }

def c8stA : StateA := { documents := [c8docA], rels := [], files := [] }

def c8docA2 : DocumentA :=
  { id := 2, lawyerId := 1, clientId := 2, lawyerClientId := 3,
    title := "Signed contract", description := none, fileName := "f2",
    originalFileName := "scan.pdf", filePath := "f2", fileSize := 1,
    mimeType := "application/pdf", category := "other",
    status := "pending_review", priority := "medium", tags := [],
    uploadedBy := 1, reviewedBy := none, reviewedAt := none,
    reviewNotes := none, isPublic := false, isDeleted := false,
    downloadCount := 0, lastDownloadedAt := none, lastDownloadedBy := none,
    createdAt := 0 }

def c8stA2 : StateA :=
  { documents := [c8docA2], rels := [], files := [] }

/-! ## Helper lemmas -/

/-- After a keyed replacement, a keyed search finds the replacement, provided
some element already satisfied the predicate and the predicate can only hold
on the key. -/
theorem find?_map_keyed {α : Type} (p : α → Bool) (key : α → Nat) (i : Nat)
    (d' : α) (l : List α)
    (hp : ∀ x, key x ≠ i → p x = false)
    (hd' : p d' = true)
    (hex : ∃ x ∈ l, p x = true) :
    (l.map (fun x => if key x == i then d' else x)).find? p = some d' := by
  induction l with
  | nil => simp at hex
  | cons a t ih =>
    rcases hex with ⟨x, hx, hpx⟩
    by_cases hk : key a = i
    · have hb : (key a == i) = true := by simpa using hk
      simp only [List.map_cons, hb, if_true]
      exact List.find?_cons_of_pos _ hd'
    · have hb : (key a == i) = false := by simpa using hk
      have hpa : p a = false := hp a hk
      have hex2 : ∃ x ∈ t, p x = true := by
        rcases List.mem_cons.mp hx with rfl | hxt
        · rw [hpa] at hpx; exact absurd hpx (by simp)
        · exact ⟨x, hxt, hpx⟩
      simp only [List.map_cons, hb, if_false]
      rw [List.find?_cons_of_neg _ (by simp [hpa])]
      exact ih hex2

/-- A filter is absorbed by an outer filter whose predicate implies it. -/
theorem filter_filter_of_imp {α : Type} (l : List α) (p q : α → Bool)
    (h : ∀ a, p a = true → q a = true) :
    (l.filter q).filter p = l.filter p := by
  induction l with
  | nil => rfl
  | cons a t ih =>
    by_cases hq : q a = true
    · simp [List.filter_cons, hq, ih]
    · have hp : p a = false := by
        cases hpa : p a
        · rfl
        · exact absurd (h a hpa) hq
      simp [List.filter_cons, hq, hp, ih]

/-- An element of a keyed-replacement image is either the replacement or an
original element. -/
theorem mem_map_replace {α : Type} (l : List α) (c : α → Bool) (d' : α)
    (z : α) (h : z ∈ l.map (fun x => if c x then d' else x)) :
    z = d' ∨ z ∈ l := by
  rcases List.mem_map.mp h with ⟨y, hy, hxy⟩
  by_cases hc : c y = true
  · left; rw [← hxy]; simp [hc]
  · right
    rw [← hxy]
    simp only [hc, if_false, Bool.false_eq_true]
    exact hy

/-! ## Claims -/

/-- C1: for every create (upload) request, the Document record produced has
isPublic = false, regardless of any visibility value supplied by the caller;
create followed by getById on the new document returns a record with
isPublic = false.  Proved for both variants: the documentController.js
handler passes no isPublic so the part_003 schema default false applies, and
the part_002 handler hard-codes isPublic false; in both cases the
caller-supplied visibility argument is ignored. -/
theorem c1_create_isPublic_false :
    (∀ (s : StateA) (L C : Nat) (title : String)
       (descr cat pr tagsCsv : Option String) (ispub : Option Bool)
       (f : FileUpload) (storedName : String) (newId now : Nat)
       (rel : LawyerClient),
       findRelA s L C = some rel →
       allowedMimeTypes.contains f.mimetype = true →
       f.size ≤ 50 * 1024 * 1024 →
       ∃ d s1, uploadA s L C title descr cat pr tagsCsv ispub (some f)
           storedName newId false now = (Except.ok d, s1) ∧
         d.isPublic = false ∧
         getByIdA s1 L d.id = (Except.ok d, s1))
  ∧ (∀ (s : StateB) (L C : Nat) (title : String) (descr dtype : Option String)
       (tags : List String) (ispub : Option Bool) (f : FileUpload)
       (storedName : String) (newId now now2 : Nat) (rel : LawyerClient),
       findRelB s.rels L C = some rel →
       allowedMimeTypes.contains f.mimetype = true →
       f.size ≤ 10 * 1024 * 1024 →
       ∃ d s1 d2 s2, uploadB s L C title descr dtype tags ispub (some f)
           storedName newId false now = (Except.ok d, s1) ∧
         d.isPublic = false ∧
         getByIdB s1 L d.id now2 = (Except.ok d2, s2) ∧
         d2.isPublic = false) := by
  constructor
  · intro s L C title descr cat pr tagsCsv ispub f storedName newId now rel
      hrel hmime hsize
    have hs : ¬ (f.size > 50 * 1024 * 1024) := by omega
    have hmem : f.mimetype ∈ allowedMimeTypes := by simpa using hmime
    have h1 : uploadA s L C title descr cat pr tagsCsv ispub (some f)
        storedName newId false now =
        (Except.ok (mkDocA L C rel.id newId title descr cat pr tagsCsv f storedName now),
          ⟨mkDocA L C rel.id newId title descr cat pr tagsCsv f storedName now
             :: s.documents,
           s.rels, fsPut s.files storedName f.bytes⟩) := by
      simp [uploadA, hrel, hmem, hs]
    have h2 : getByIdA
        ⟨mkDocA L C rel.id newId title descr cat pr tagsCsv f storedName now
           :: s.documents, s.rels, fsPut s.files storedName f.bytes⟩ L
        (mkDocA L C rel.id newId title descr cat pr tagsCsv f storedName now).id =
        (Except.ok (mkDocA L C rel.id newId title descr cat pr tagsCsv f storedName now),
          ⟨mkDocA L C rel.id newId title descr cat pr tagsCsv f storedName now
             :: s.documents, s.rels, fsPut s.files storedName f.bytes⟩) := by
      simp [getByIdA, findDocA, mkDocA]
    exact ⟨_, _, h1, rfl, h2⟩
  · intro s L C title descr dtype tags ispub f storedName newId now now2 rel
      hrel hmime hsize
    have hs : ¬ (f.size > 10 * 1024 * 1024) := by omega
    have hmem : f.mimetype ∈ allowedMimeTypes := by simpa using hmime
    have h1 : uploadB s L C title descr dtype tags ispub (some f)
        storedName newId false now =
        (Except.ok (mkDocB L C newId title descr dtype tags f storedName now),
          ⟨mkDocB L C newId title descr dtype tags f storedName now
             :: s.documents, s.rels, fsPut s.files storedName f.bytes⟩) := by
      simp [uploadB, multerB, hmem, hs, uploadBHandler, hrel]
    have h2 : getByIdB
        ⟨mkDocB L C newId title descr dtype tags f storedName now
           :: s.documents, s.rels, fsPut s.files storedName f.bytes⟩ L
        (mkDocB L C newId title descr dtype tags f storedName now).id now2 =
        (Except.ok
          { mkDocB L C newId title descr dtype tags f storedName now with
              lastAccessed := some now2 },
          ⟨saveDocB
            (mkDocB L C newId title descr dtype tags f storedName now
               :: s.documents)
            { mkDocB L C newId title descr dtype tags f storedName now with
                lastAccessed := some now2 },
           s.rels, fsPut s.files storedName f.bytes⟩) := by
      simp [getByIdB, findDocB, mkDocB]
    exact ⟨_, _, _, _, h1, rfl, h2, rfl⟩

/-- Witness for C1: a concrete upload as lawyer 1 for client 2, with the
caller attempting to pass a visibility of true. -/
theorem c1_create_isPublic_false_witness :
    ∃ d s1, uploadA c1stA 1 2 "Title" none none none none (some true)
        (some c1fileEx) "doc-1.pdf" 10 false 100 = (Except.ok d, s1) ∧
      d.isPublic = false ∧ getByIdA s1 1 d.id = (Except.ok d, s1) :=
  c1_create_isPublic_false.1 c1stA 1 2 "Title" none none none none (some true)
    c1fileEx "doc-1.pdf" 10 100 ⟨5, 1, 2, "active"⟩ (by decide) (by decide)
    (by decide)

/-- C4: every document in any list result belongs to the calling lawyer, for
both variants; in particular lawyer 1's two documents for client 3 never
appear in lawyer 2's unfiltered list result. -/
theorem c4_list_scoped_to_lawyer :
    (∀ (s : StateA) (L : Nat) (cid : Option Nat) (cat st pr se : Option String)
       (page limit : Nat) (d : DocumentA),
       d ∈ (listA s L cid cat st pr se page limit).1.documents → d.lawyerId = L)
  ∧ (∀ (s : StateB) (L : Nat) (cid : Option Nat) (st dt se : Option String)
       (page limit : Nat) (d : DocumentB),
       d ∈ (listB s L cid st dt se page limit).1.documents → d.lawyerId = L) := by
  constructor
  · intro s L cid cat st pr se page limit d h
    simp only [listA] at h
    have h2 : d ∈ filteredA s L cid cat st pr se :=
      List.drop_subset _ _ (List.take_subset _ _ h)
    rw [filteredA, List.mem_filter] at h2
    have h3 := h2.2
    simp only [queryA, Bool.and_eq_true, beq_iff_eq] at h3
    exact h3.1.1.1.1.1.1
  · intro s L cid st dt se page limit d h
    simp only [listB] at h
    have h2 : d ∈ filteredB s L cid st dt se :=
      List.drop_subset _ _ (List.take_subset _ _ h)
    rw [filteredB, List.mem_filter] at h2
    have h3 := h2.2
    simp only [queryB, Bool.and_eq_true, beq_iff_eq] at h3
    exact h3.1.1.1.1

/-- Witness for C4: lawyer 1 created two documents for client 3, and lawyer
2's unfiltered list result contains only lawyer-2 documents, hence neither of
them; concretely it is empty. -/
theorem c4_list_scoped_to_lawyer_witness :
    c4stB.documents.length = 2 ∧
    (∀ d, d ∈ (listB c4stB 2 none none none none 1 20).1.documents →
      d.lawyerId = 2) ∧
    (listB c4stB 2 none none none none 1 20).1.documents = [] :=
  ⟨by decide,
   fun d h => c4_list_scoped_to_lawyer.2 c4stB 2 none none none none 1 20 d h,
   by decide⟩

/-- C9: pagination math of both list handlers.  totalPages is the ceiling of
totalItems / limit (characterized by the two bounds), hasNext is
(page-1)*limit + returnedCount < totalItems, hasPrev is page > 1, and the
concrete instance with 45 matching documents and limit 20 gives 3 pages with
the stated flags on pages 1 and 3. -/
theorem c9_pagination_math :
    (∀ (s : StateA) (L : Nat) (cid : Option Nat) (cat st pr se : Option String)
       (page limit : Nat), 1 ≤ limit →
       (listA s L cid cat st pr se page limit).1.pagination.totalItems =
           (filteredA s L cid cat st pr se).length
         ∧ (listA s L cid cat st pr se page limit).1.pagination.totalItems ≤
           (listA s L cid cat st pr se page limit).1.pagination.totalPages * limit
         ∧ (listA s L cid cat st pr se page limit).1.pagination.totalPages * limit <
           (listA s L cid cat st pr se page limit).1.pagination.totalItems + limit
         ∧ ((listA s L cid cat st pr se page limit).1.pagination.hasNext = true ↔
           (page - 1) * limit +
               (listA s L cid cat st pr se page limit).1.documents.length <
             (listA s L cid cat st pr se page limit).1.pagination.totalItems)
         ∧ ((listA s L cid cat st pr se page limit).1.pagination.hasPrev = true ↔
           1 < page))
  ∧ (∀ (s : StateB) (L : Nat) (cid : Option Nat) (st dt se : Option String)
       (page limit : Nat), 1 ≤ limit →
       (listB s L cid st dt se page limit).1.pagination.totalItems =
           (filteredB s L cid st dt se).length
         ∧ (listB s L cid st dt se page limit).1.pagination.totalItems ≤
           (listB s L cid st dt se page limit).1.pagination.totalPages * limit
         ∧ (listB s L cid st dt se page limit).1.pagination.totalPages * limit <
           (listB s L cid st dt se page limit).1.pagination.totalItems + limit
         ∧ ((listB s L cid st dt se page limit).1.pagination.hasNext = true ↔
           (page - 1) * limit +
               (listB s L cid st dt se page limit).1.documents.length <
             (listB s L cid st dt se page limit).1.pagination.totalItems)
         ∧ ((listB s L cid st dt se page limit).1.pagination.hasPrev = true ↔
           1 < page))
  ∧ (listA c9stA 1 none none none none none 1 20).1.pagination =
      ⟨1, 3, 45, true, false⟩
  ∧ (listA c9stA 1 none none none none none 3 20).1.pagination =
      ⟨3, 3, 45, false, true⟩ := by
  refine ⟨?_, ?_, by decide, by decide⟩
  · intro s L cid cat st pr se page limit hl
    simp only [listA, ceilDiv]
    set a := (filteredA s L cid cat st pr se).length with ha
    have h1 := Nat.div_add_mod (a + limit - 1) limit
    have h2 := Nat.mod_lt (a + limit - 1) (show 0 < limit by omega)
    have h3 : ((a + limit - 1) / limit) * limit =
        limit * ((a + limit - 1) / limit) := Nat.mul_comm _ _
    refine ⟨by trivial, by omega, by omega, by simp, by simp⟩
  · intro s L cid st dt se page limit hl
    simp only [listB, ceilDiv]
    set a := (filteredB s L cid st dt se).length with ha
    have h1 := Nat.div_add_mod (a + limit - 1) limit
    have h2 := Nat.mod_lt (a + limit - 1) (show 0 < limit by omega)
    have h3 : ((a + limit - 1) / limit) * limit =
        limit * ((a + limit - 1) / limit) := Nat.mul_comm _ _
    refine ⟨by trivial, by omega, by omega, by simp, by simp⟩

/-- Witness for C9: the general pagination bounds at page 2, limit 20 over
the 45-document state. -/
theorem c9_pagination_math_witness :
    (listA c9stA 1 none none none none none 2 20).1.pagination.totalItems =
        (filteredA c9stA 1 none none none none none).length
      ∧ (listA c9stA 1 none none none none none 2 20).1.pagination.totalItems ≤
        (listA c9stA 1 none none none none none 2 20).1.pagination.totalPages * 20
      ∧ (listA c9stA 1 none none none none none 2 20).1.pagination.totalPages * 20 <
        (listA c9stA 1 none none none none none 2 20).1.pagination.totalItems + 20
      ∧ ((listA c9stA 1 none none none none none 2 20).1.pagination.hasNext = true ↔
        (2 - 1) * 20 +
            (listA c9stA 1 none none none none none 2 20).1.documents.length <
          (listA c9stA 1 none none none none none 2 20).1.pagination.totalItems)
      ∧ ((listA c9stA 1 none none none none none 2 20).1.pagination.hasPrev = true ↔
        1 < 2) :=
  c9_pagination_math.1 c9stA 1 none none none none none 2 20 (by decide)

/-- C10: a second delete issued after a successful delete of the same
document fails with a 404 and leaves the state unchanged, for any caller.
In variant A the soft-deleted record no longer passes the isDeleted = false
lookup filter; in variant B the record is physically gone. -/
theorem c10_second_delete_fails :
    (∀ (s : StateA) (L L2 i : Nat) (s1 : StateA),
       deleteA s L i = (Except.ok (), s1) →
       deleteA s1 L2 i = (Except.error ⟨404, "Document not found"⟩, s1))
  ∧ (∀ (s : StateB) (L L2 i : Nat) (s1 : StateB),
       deleteB s L i = (Except.ok (), s1) →
       deleteB s1 L2 i = (Except.error ⟨404, "Document not found"⟩, s1)) := by
  constructor
  · intro s L L2 i s1 h
    cases hf : findDocA s.documents L i with
    | none => simp [deleteA, hf] at h
    | some d =>
      simp only [deleteA, hf] at h
      rw [Prod.mk.injEq] at h
      obtain ⟨-, h2⟩ := h
      subst h2
      have hd := List.find?_some hf
      simp only [Bool.and_eq_true, beq_iff_eq] at hd
      have hnone : findDocA
          (saveDocA s.documents { d with isDeleted := true }) L2 i = none := by
        apply List.find?_eq_none.mpr
        intro x hx
        simp only [saveDocA] at hx
        rcases List.mem_map.mp hx with ⟨y, hy, hxy⟩
        by_cases hk : y.id = ({ d with isDeleted := true } : DocumentA).id
        · have hx2 : x = { d with isDeleted := true } := by
            rw [← hxy]; simp [hk]
          subst hx2
          simp
        · have hx2 : x = y := by rw [← hxy]; simp [hk]
          subst hx2
          have hne : x.id ≠ i := by
            intro hyi
            exact hk (by simpa using hyi.trans hd.1.1.symm)
          simp [hne]
      simp [deleteA, hnone]
  · intro s L L2 i s1 h
    cases hf : findDocB s.documents L i with
    | none => simp [deleteB, hf] at h
    | some d =>
      simp only [deleteB, hf] at h
      rw [Prod.mk.injEq] at h
      obtain ⟨-, h2⟩ := h
      subst h2
      have hnone : findDocB
          (s.documents.filter (fun x => !(x.id == i))) L2 i = none := by
        apply List.find?_eq_none.mpr
        intro x hx
        have hne := (List.mem_filter.mp hx).2
        simp only [Bool.not_eq_true', beq_eq_false_iff_ne] at hne
        simp [hne]
      simp [deleteB, hnone]

/-- Witness for C10: concrete double deletes in both variants. -/
theorem c10_second_delete_fails_witness :
    deleteA (deleteA c10stA 1 1).2 1 1 =
        (Except.error ⟨404, "Document not found"⟩, (deleteA c10stA 1 1).2)
      ∧ deleteB (deleteB c10stB 1 1).2 1 1 =
        (Except.error ⟨404, "Document not found"⟩, (deleteB c10stB 1 1).2) :=
  ⟨c10_second_delete_fails.1 c10stA 1 1 1 (deleteA c10stA 1 1).2 rfl,
   c10_second_delete_fails.2 c10stB 1 1 1 (deleteB c10stB 1 1).2 rfl⟩

/-- C2: soft-deleted documents are excluded from every variant-A list,
fetch, download and stats query, and after a successful variant-B (hard)
delete no subsequent list, fetch, download or stats call surfaces the
deleted document: the record is gone from the state, list results never
contain its id, fetch and download return 404 leaving the state unchanged,
and the stats aggregation input contains no record with its id. -/
theorem c2_deleted_documents_never_surfaced :
    (∀ (s : StateA) (L : Nat) (cid : Option Nat) (cat st pr se : Option String)
       (page limit : Nat) (d : DocumentA),
       d ∈ (listA s L cid cat st pr se page limit).1.documents →
       d.isDeleted = false)
  ∧ (∀ (s : StateA) (L i : Nat) (d : DocumentA) (s1 : StateA),
       getByIdA s L i = (Except.ok d, s1) → d.isDeleted = false)
  ∧ (∀ (s : StateA) (L i now : Nat) (d : DocumentA) (bytes : List Nat)
       (s1 : StateA),
       downloadA s L i now = (Except.ok (d, bytes), s1) → d.isDeleted = false)
  ∧ (∀ (docs : List DocumentA) (L : Nat) (cid : Option Nat),
       statsA (docs.filter (fun d => !d.isDeleted)) L cid = statsA docs L cid)
  ∧ (∀ (s : StateB) (L i : Nat) (s1 : StateB),
       deleteB s L i = (Except.ok (), s1) →
       (∀ d ∈ s1.documents, d.id ≠ i)
       ∧ (∀ (L2 : Nat) (cid : Option Nat) (st dt se : Option String)
            (page limit : Nat) (d : DocumentB),
            d ∈ (listB s1 L2 cid st dt se page limit).1.documents → d.id ≠ i)
       ∧ (∀ (L2 now : Nat), getByIdB s1 L2 i now =
            (Except.error ⟨404, "Document not found"⟩, s1))
       ∧ (∀ (L2 now : Nat), downloadB s1 L2 i now =
            (Except.error ⟨404, "Document not found"⟩, s1))
       ∧ (∀ (L2 : Nat) (cid : Option Nat),
            statsB (s1.documents.filter (fun d => !(d.id == i))) L2 cid =
              statsB s1.documents L2 cid)) := by
  refine ⟨?_, ?_, ?_, ?_, ?_⟩
  · intro s L cid cat st pr se page limit d h
    simp only [listA] at h
    have h2 : d ∈ filteredA s L cid cat st pr se :=
      List.drop_subset _ _ (List.take_subset _ _ h)
    rw [filteredA, List.mem_filter] at h2
    have h3 := h2.2
    simp only [queryA, Bool.and_eq_true, Bool.not_eq_true'] at h3
    exact h3.1.1.1.1.1.2
  · intro s L i d s1 h
    cases hf : findDocA s.documents L i with
    | none => simp [getByIdA, hf] at h
    | some d0 =>
      simp only [getByIdA, hf] at h
      rw [Prod.mk.injEq] at h
      obtain ⟨h1, -⟩ := h
      have hd := List.find?_some hf
      simp only [Bool.and_eq_true, Bool.not_eq_true'] at hd
      cases h1
      exact hd.2
  · intro s L i now d bytes s1 h
    cases hf : findDocA s.documents L i with
    | none => simp [downloadA, hf] at h
    | some d0 =>
      cases hg : fsGet s.files d0.filePath with
      | none => simp [downloadA, hf, hg] at h
      | some b =>
        simp only [downloadA, hf, hg] at h
        rw [Prod.mk.injEq] at h
        obtain ⟨h1, -⟩ := h
        rw [Except.ok.injEq, Prod.mk.injEq] at h1
        obtain ⟨h1, -⟩ := h1
        have hd := List.find?_some hf
        simp only [Bool.and_eq_true, Bool.not_eq_true'] at hd
        rw [← h1]
        exact hd.2
  · intro docs L cid
    have hf := filter_filter_of_imp docs
      (fun d => d.lawyerId == L && !d.isDeleted &&
        (match cid with | none => true | some c => d.clientId == c))
      (fun d => !d.isDeleted)
      (by intro a ha
          simp only [Bool.and_eq_true] at ha
          exact ha.1.2)
    simp only [statsA, hf]
  · intro s L i s1 h
    cases hf : findDocB s.documents L i with
    | none => simp [deleteB, hf] at h
    | some d =>
      simp only [deleteB, hf] at h
      rw [Prod.mk.injEq] at h
      obtain ⟨-, h2⟩ := h
      subst h2
      have hmem : ∀ x ∈ s.documents.filter (fun x => !(x.id == i)),
          x.id ≠ i := by
        intro x hx
        have hne := (List.mem_filter.mp hx).2
        simpa [Bool.not_eq_true', beq_eq_false_iff_ne] using hne
      have hnone : ∀ L2, findDocB
          (s.documents.filter (fun x => !(x.id == i))) L2 i = none := by
        intro L2
        apply List.find?_eq_none.mpr
        intro x hx
        simp [hmem x hx]
      refine ⟨hmem, ?_, ?_, ?_, ?_⟩
      · intro L2 cid st dt se page limit d' h'
        simp only [listB] at h'
        have h2 : d' ∈ filteredB
            ⟨s.documents.filter (fun x => !(x.id == i)), s.rels,
              fsDelete s.files d.filePath⟩ L2 cid st dt se :=
          List.drop_subset _ _ (List.take_subset _ _ h')
        rw [filteredB] at h2
        exact hmem d' (List.mem_of_mem_filter h2)
      · intro L2 now
        simp [getByIdB, hnone L2]
      · intro L2 now
        simp [downloadB, hnone L2]
      · intro L2 cid
        have heq : (s.documents.filter (fun x => !(x.id == i))).filter
            (fun d => !(d.id == i)) =
            s.documents.filter (fun x => !(x.id == i)) := by
          apply List.filter_eq_self.mpr
          intro a ha
          simp [hmem a ha]
        simp only [heq]

/-- Witness for C2: after a concrete variant-B delete, a fetch of the
deleted document returns 404 with the state unchanged. -/
theorem c2_deleted_documents_never_surfaced_witness :
    getByIdB (deleteB c2stB 1 1).2 1 1 55 =
      (Except.error ⟨404, "Document not found"⟩, (deleteB c2stB 1 1).2) :=
  ((c2_deleted_documents_never_surfaced.2.2.2.2 c2stB 1 1
      (deleteB c2stB 1 1).2 rfl).2.2.1) 1 55

/-- A successful variant-A download returns the bumped record with the
stored bytes and saves the bumped record. -/
theorem downloadA_ok (s : StateA) (L i now : Nat) (d0 : DocumentA)
    (bytes : List Nat) (hFind : findDocA s.documents L i = some d0)
    (hFile : fsGet s.files d0.filePath = some bytes) :
    downloadA s L i now =
      (Except.ok (dlBumpA d0 L now, bytes),
       { s with documents := saveDocA s.documents (dlBumpA d0 L now) }) := by
  simp [downloadA, hFind, hFile, dlBumpA]

/-- After saving a replacement that still satisfies the scoped lookup
predicate, the lookup finds the replacement. -/
theorem findDocA_saveDocA (docs : List DocumentA) (L i : Nat)
    (d0 d' : DocumentA) (hFind : findDocA docs L i = some d0)
    (hid : d'.id = i) (hL : d'.lawyerId = L) (hdel : d'.isDeleted = false) :
    findDocA (saveDocA docs d') L i = some d' := by
  rw [findDocA, saveDocA]
  simp only [hid]
  exact find?_map_keyed _ (fun d => d.id) i d' docs
    (by intro x hx; simp [hx])
    (by simp [hid, hL, hdel])
    ⟨d0, List.mem_of_find?_eq_some hFind, List.find?_some hFind⟩

/-- C7: each successful download increments downloadCount by exactly 1 and
returns the byte content of the stored file, so three successive downloads
increase the counter by 3 and return the same bytes each time (variant A
chain, variant B single step); metadata reads never change any
downloadCount: variant A's getById and both list handlers do not change the
state at all, variant B's getById only bumps lastAccessed, and neither
update handler touches the counter. -/
theorem c7_download_counter :
    (∀ (s : StateA) (L i now1 now2 now3 : Nat) (d0 : DocumentA)
       (bytes : List Nat),
       findDocA s.documents L i = some d0 →
       fsGet s.files d0.filePath = some bytes →
       ∃ d1 d2 d3 s1 s2 s3,
         downloadA s L i now1 = (Except.ok (d1, bytes), s1) ∧
         downloadA s1 L i now2 = (Except.ok (d2, bytes), s2) ∧
         downloadA s2 L i now3 = (Except.ok (d3, bytes), s3) ∧
         d1.downloadCount = d0.downloadCount + 1 ∧
         d2.downloadCount = d0.downloadCount + 2 ∧
         d3.downloadCount = d0.downloadCount + 3)
  ∧ (∀ (s : StateB) (L i now : Nat) (d0 : DocumentB) (bytes : List Nat),
       findDocB s.documents L i = some d0 →
       fsGet s.files d0.filePath = some bytes →
       ∃ s1, downloadB s L i now = (Except.ok (dlBumpB d0 now, bytes), s1))
  ∧ (∀ (s : StateA) (L i : Nat), (getByIdA s L i).2 = s)
  ∧ (∀ (s : StateA) (L : Nat) (cid : Option Nat) (cat st pr se : Option String)
       (page limit : Nat), (listA s L cid cat st pr se page limit).2 = s)
  ∧ (∀ (s : StateB) (L : Nat) (cid : Option Nat) (st dt se : Option String)
       (page limit : Nat), (listB s L cid st dt se page limit).2 = s)
  ∧ (∀ (s : StateB) (L i now : Nat) (r : Except HErr DocumentB) (s1 : StateB),
       getByIdB s L i now = (r, s1) →
       ∀ d' ∈ s1.documents, ∃ d ∈ s.documents,
         d'.id = d.id ∧ d'.downloadCount = d.downloadCount)
  ∧ (∀ (s : StateA) (L i : Nat) (p1 p2 p3 p4 p5 p6 p7 : Option String)
       (now : Nat) (r : Except HErr DocumentA) (s1 : StateA),
       updateA s L i p1 p2 p3 p4 p5 p6 p7 now = (r, s1) →
       ∀ d' ∈ s1.documents, ∃ d ∈ s.documents,
         d'.downloadCount = d.downloadCount)
  ∧ (∀ (s : StateB) (L i : Nat) (t de dt : Option String)
       (tg : Option (List String)) (st rn : Option String) (now : Nat)
       (r : Except HErr DocumentB) (s1 : StateB),
       updateB s L i t de dt tg st rn now = (r, s1) →
       ∀ d' ∈ s1.documents, ∃ d ∈ s.documents,
         d'.downloadCount = d.downloadCount) := by
  refine ⟨?_, ?_, ?_, ?_, ?_, ?_, ?_, ?_⟩
  · intro s L i now1 now2 now3 d0 bytes hFind hFile
    have hd0 := List.find?_some hFind
    simp only [Bool.and_eq_true, beq_iff_eq, Bool.not_eq_true'] at hd0
    have h1 := downloadA_ok s L i now1 d0 bytes hFind hFile
    have hFind1 : findDocA (saveDocA s.documents (dlBumpA d0 L now1)) L i =
        some (dlBumpA d0 L now1) :=
      findDocA_saveDocA s.documents L i d0 _ hFind
        (by simp [dlBumpA, hd0.1.1]) (by simp [dlBumpA, hd0.1.2])
        (by simp [dlBumpA, hd0.2])
    have h2 := downloadA_ok
      { s with documents := saveDocA s.documents (dlBumpA d0 L now1) }
      L i now2 (dlBumpA d0 L now1) bytes hFind1 hFile
    have hFind2 : findDocA
        (saveDocA (saveDocA s.documents (dlBumpA d0 L now1))
          (dlBumpA (dlBumpA d0 L now1) L now2)) L i =
        some (dlBumpA (dlBumpA d0 L now1) L now2) :=
      findDocA_saveDocA _ L i (dlBumpA d0 L now1) _ hFind1
        (by simp [dlBumpA, hd0.1.1]) (by simp [dlBumpA, hd0.1.2])
        (by simp [dlBumpA, hd0.2])
    have h3 := downloadA_ok
      { s with documents := saveDocA (saveDocA s.documents (dlBumpA d0 L now1)) (dlBumpA (dlBumpA d0 L now1) L now2) }
      L i now3 (dlBumpA (dlBumpA d0 L now1) L now2) bytes hFind2 hFile
    exact ⟨_, _, _, _, _, _, h1, h2, h3, rfl, rfl, rfl⟩
  · intro s L i now d0 bytes hFind hFile
    exact ⟨{ s with documents := saveDocB s.documents (dlBumpB d0 now) },
      by simp [downloadB, hFind, hFile, dlBumpB]⟩
  · intro s L i
    cases hf : findDocA s.documents L i <;> simp [getByIdA, hf]
  · intro s L cid cat st pr se page limit
    rfl
  · intro s L cid st dt se page limit
    rfl
  · intro s L i now r s1 h d' hd'
    cases hf : findDocB s.documents L i with
    | none =>
      simp only [getByIdB, hf] at h
      rw [Prod.mk.injEq] at h
      obtain ⟨-, h2⟩ := h
      subst h2
      exact ⟨d', hd', rfl, rfl⟩
    | some d =>
      simp only [getByIdB, hf] at h
      rw [Prod.mk.injEq] at h
      obtain ⟨-, h2⟩ := h
      subst h2
      have hd2 : d' ∈ saveDocB s.documents { d with lastAccessed := some now } :=
        hd'
      simp only [saveDocB] at hd2
      rcases mem_map_replace s.documents _ _ d' hd2 with he | hyl
      · exact ⟨d, List.mem_of_find?_eq_some hf, by rw [he], by rw [he]⟩
      · exact ⟨d', hyl, rfl, rfl⟩
  · intro s L i p1 p2 p3 p4 p5 p6 p7 now r s1 h d' hd'
    cases hf : findDocA s.documents L i with
    | none =>
      simp only [updateA, hf] at h
      rw [Prod.mk.injEq] at h
      obtain ⟨-, h2⟩ := h
      subst h2
      exact ⟨d', hd', rfl⟩
    | some d0 =>
      simp only [updateA, hf] at h
      rw [Prod.mk.injEq] at h
      obtain ⟨-, h2⟩ := h
      subst h2
      have hd2 := hd'
      simp only [saveDocA] at hd2
      rcases mem_map_replace s.documents _ _ d' hd2 with he | hyl
      · refine ⟨d0, List.mem_of_find?_eq_some hf, ?_⟩
        rw [he]
        repeat' split
        all_goals rfl
      · exact ⟨d', hyl, rfl⟩
  · intro s L i t de dt tg st rn now r s1 h d' hd'
    cases hf : findDocB s.documents L i with
    | none =>
      simp only [updateB, hf] at h
      rw [Prod.mk.injEq] at h
      obtain ⟨-, h2⟩ := h
      subst h2
      exact ⟨d', hd', rfl⟩
    | some d0 =>
      simp only [updateB, hf] at h
      rw [Prod.mk.injEq] at h
      obtain ⟨-, h2⟩ := h
      subst h2
      have hd2 := hd'
      simp only [saveDocB] at hd2
      rcases mem_map_replace s.documents _ _ d' hd2 with he | hyl
      · refine ⟨d0, List.mem_of_find?_eq_some hf, ?_⟩
        rw [he]
        repeat' split
        all_goals rfl
      · exact ⟨d', hyl, rfl⟩

/-- Witness for C7: three concrete downloads of the same document. -/
theorem c7_download_counter_witness :
    ∃ d1 d2 d3 s1 s2 s3,
      downloadA c7stA 1 1 10 = (Except.ok (d1, [7, 8]), s1) ∧
      downloadA s1 1 1 11 = (Except.ok (d2, [7, 8]), s2) ∧
      downloadA s2 1 1 12 = (Except.ok (d3, [7, 8]), s3) ∧
      d1.downloadCount = c7docA.downloadCount + 1 ∧
      d2.downloadCount = c7docA.downloadCount + 2 ∧
      d3.downloadCount = c7docA.downloadCount + 3 :=
  c7_download_counter.1 c7stA 1 1 10 11 12 c7docA [7, 8] rfl rfl

/-- C3 (the documentController.js code contradicts its own comment): an
update whose status moves from "pending_review" into the review-terminal
value "approved" leaves reviewedBy and reviewedAt unset, and a transition to
"reviewed" sets only reviewedAt (via the part_003 pre-save hook), never
reviewedBy: the guard compares document.status after it has already been
overwritten, so it can never fire.  The part_002 variant implements the
claimed behavior, shown in the third conjunct for contrast. -/
theorem c3_variantA_review_fields_not_set :
    (updateA c3stA 7 1 none none none none none (some "approved") none
        99).1.map (fun d => (d.status, d.reviewedBy, d.reviewedAt)) =
      Except.ok ("approved", none, none)
  ∧ (updateA c3stA 7 1 none none none none none (some "reviewed") none
        99).1.map (fun d => (d.status, d.reviewedBy, d.reviewedAt)) =
      Except.ok ("reviewed", none, some 99)
  ∧ (updateB c3stB 7 1 none none none none (some "approved") none
        99).1.map (fun d => (d.status, d.reviewedBy, d.reviewedAt)) =
      Except.ok ("approved", some 7, some 99) :=
  ⟨rfl, rfl, rfl⟩

/-- Deleting a path removes it from the file store. -/
theorem fsGet_fsDelete (fs : FileStore) (p : String) :
    fsGet (fsDelete fs p) p = none := by
  rw [fsGet, fsDelete]
  have h : (fs.filter (fun e => !(e.1 == p))).find? (fun e => e.1 == p) =
      none := by
    apply List.find?_eq_none.mpr
    intro x hx
    have hx2 := (List.mem_filter.mp hx).2
    simpa using hx2
  rw [h]
  rfl

/-- A freshly stored path is readable with its bytes. -/
theorem fsGet_fsPut (fs : FileStore) (p : String) (b : List Nat) :
    fsGet (fsPut fs p b) p = some b := by
  simp [fsGet, fsPut]

/-- C5 amended: when the database write fails after the file was stored, the
documentController.js handler deletes the stored file before surfacing the
error and creates no record; the part_002 handler performs no compensating
delete, so the record is not created but the file stored by the upload
middleware survives the failed create. -/
theorem c5_compensating_delete_amended :
    (∀ (s : StateA) (L C : Nat) (title : String)
       (descr cat pr tagsCsv : Option String) (ispub : Option Bool)
       (f : FileUpload) (storedName : String) (newId now : Nat)
       (rel : LawyerClient),
       findRelA s L C = some rel →
       allowedMimeTypes.contains f.mimetype = true →
       f.size ≤ 50 * 1024 * 1024 →
       ∃ s1, uploadA s L C title descr cat pr tagsCsv ispub (some f)
           storedName newId true now =
           (Except.error ⟨500, "Failed to upload document"⟩, s1)
         ∧ s1.documents = s.documents
         ∧ fsGet s1.files storedName = none)
  ∧ (∀ (s : StateB) (L C : Nat) (title : String) (descr dtype : Option String)
       (tags : List String) (ispub : Option Bool) (f : FileUpload)
       (storedName : String) (newId now : Nat) (rel : LawyerClient),
       findRelB s.rels L C = some rel →
       allowedMimeTypes.contains f.mimetype = true →
       f.size ≤ 10 * 1024 * 1024 →
       ∃ s1, uploadB s L C title descr dtype tags ispub (some f) storedName
           newId true now =
           (Except.error ⟨500, "Failed to upload document"⟩, s1)
         ∧ s1.documents = s.documents
         ∧ fsGet s1.files storedName = some f.bytes) := by
  constructor
  · intro s L C title descr cat pr tagsCsv ispub f storedName newId now rel
      hrel hmime hsize
    have hs : ¬ (f.size > 50 * 1024 * 1024) := by omega
    have hmem : f.mimetype ∈ allowedMimeTypes := by simpa using hmime
    refine ⟨{ s with files := fsDelete (fsPut s.files storedName f.bytes) storedName }, ?_, rfl, fsGet_fsDelete _ _⟩
    simp [uploadA, hrel, hmem, hs]
  · intro s L C title descr dtype tags ispub f storedName newId now rel
      hrel hmime hsize
    have hs : ¬ (f.size > 10 * 1024 * 1024) := by omega
    have hmem : f.mimetype ∈ allowedMimeTypes := by simpa using hmime
    refine ⟨{ s with files := fsPut s.files storedName f.bytes }, ?_, rfl,
      fsGet_fsPut _ _ _⟩
    simp [uploadB, multerB, hmem, hs, uploadBHandler, hrel]

/-- Counterexample to C5 as stated: a concrete part_002 create whose
database write fails surfaces the error while the stored file is still in
the file store — state does survive the failed create. -/
theorem c5_counterexample :
    (uploadB c5stB 1 2 "T" none none [] none (some c5fileEx) "up.pdf" 9
        true 50).1 = Except.error ⟨500, "Failed to upload document"⟩
  ∧ fsGet (uploadB c5stB 1 2 "T" none none [] none (some c5fileEx) "up.pdf" 9
        true 50).2.files "up.pdf" = some [1, 2, 3]
  ∧ (uploadB c5stB 1 2 "T" none none [] none (some c5fileEx) "up.pdf" 9
        true 50).2.documents = [] :=
  ⟨rfl, rfl, rfl⟩

/-- Witness for the amended C5: the concrete variant-A failed create deletes
the stored file, and the concrete variant-B failed create leaves it. -/
theorem c5_compensating_delete_amended_witness :
    (∃ s1, uploadA c5stA 1 2 "T" none none none none none (some c5fileEx)
        "up.pdf" 9 true 50 =
        (Except.error ⟨500, "Failed to upload document"⟩, s1)
      ∧ s1.documents = c5stA.documents
      ∧ fsGet s1.files "up.pdf" = none)
  ∧ (∃ s1, uploadB c5stB 1 2 "T" none none [] none (some c5fileEx)
        "up.pdf" 9 true 50 =
        (Except.error ⟨500, "Failed to upload document"⟩, s1)
      ∧ s1.documents = c5stB.documents
      ∧ fsGet s1.files "up.pdf" = some c5fileEx.bytes) :=
  ⟨c5_compensating_delete_amended.1 c5stA 1 2 "T" none none none none none
      c5fileEx "up.pdf" 9 50 ⟨4, 1, 2, "active"⟩ rfl rfl (by decide),
   c5_compensating_delete_amended.2 c5stB 1 2 "T" none none [] none
      c5fileEx "up.pdf" 9 50 ⟨4, 1, 2, "active"⟩ rfl rfl (by decide)⟩

/-- C6 amended: a create for a client with no active-or-pending relationship
fails with 404 and creates no Document record in both variants; in
documentController.js the whole state is unchanged (the upload middleware
only runs after the relationship check), while in part_002 the file already
stored by the upload middleware is not removed. -/
theorem c6_no_relationship_create_amended :
    (∀ (s : StateA) (L C : Nat) (title : String)
       (descr cat pr tagsCsv : Option String) (ispub : Option Bool)
       (file : Option FileUpload) (storedName : String) (newId : Nat)
       (dbFails : Bool) (now : Nat),
       findRelA s L C = none →
       uploadA s L C title descr cat pr tagsCsv ispub file storedName newId
           dbFails now =
         (Except.error ⟨404, "Client relationship not found"⟩, s))
  ∧ (∀ (s : StateB) (L C : Nat) (title : String) (descr dtype : Option String)
       (tags : List String) (ispub : Option Bool) (f : FileUpload)
       (storedName : String) (newId : Nat) (dbFails : Bool) (now : Nat),
       findRelB s.rels L C = none →
       allowedMimeTypes.contains f.mimetype = true →
       f.size ≤ 10 * 1024 * 1024 →
       ∃ s1, uploadB s L C title descr dtype tags ispub (some f) storedName
           newId dbFails now =
           (Except.error ⟨404, "Client relationship not found or inactive"⟩, s1)
         ∧ s1.documents = s.documents
         ∧ fsGet s1.files storedName = some f.bytes) := by
  constructor
  · intro s L C title descr cat pr tagsCsv ispub file storedName newId
      dbFails now hrel
    simp [uploadA, hrel]
  · intro s L C title descr dtype tags ispub f storedName newId dbFails now
      hrel hmime hsize
    have hs : ¬ (f.size > 10 * 1024 * 1024) := by omega
    have hmem : f.mimetype ∈ allowedMimeTypes := by simpa using hmime
    refine ⟨{ s with files := fsPut s.files storedName f.bytes }, ?_, rfl,
      fsGet_fsPut _ _ _⟩
    simp [uploadB, multerB, hmem, hs, uploadBHandler, hrel]

/-- Counterexample to C6 as stated: a concrete part_002 create with no
relationship row returns 404 and creates no record, but a stored file for
the request does exist afterwards. -/
theorem c6_counterexample :
    (uploadB c6stB 1 2 "T" none none [] none (some c6fileEx) "up6.pdf" 9
        false 50).1 =
      Except.error ⟨404, "Client relationship not found or inactive"⟩
  ∧ fsGet (uploadB c6stB 1 2 "T" none none [] none (some c6fileEx) "up6.pdf"
        9 false 50).2.files "up6.pdf" = some [6, 6]
  ∧ (uploadB c6stB 1 2 "T" none none [] none (some c6fileEx) "up6.pdf" 9
        false 50).2.documents = [] :=
  ⟨rfl, rfl, rfl⟩

/-- Witness for the amended C6: concrete no-relationship creates in both
variants. -/
theorem c6_no_relationship_create_amended_witness :
    (uploadA c6stA 1 2 "T" none none none none none (some c6fileEx)
        "up6.pdf" 9 false 50 =
      (Except.error ⟨404, "Client relationship not found"⟩, c6stA))
  ∧ (∃ s1, uploadB c6stB 1 2 "T" none none [] none (some c6fileEx)
        "up6.pdf" 9 false 50 =
        (Except.error ⟨404, "Client relationship not found or inactive"⟩, s1)
      ∧ s1.documents = c6stB.documents
      ∧ fsGet s1.files "up6.pdf" = some c6fileEx.bytes) :=
  ⟨c6_no_relationship_create_amended.1 c6stA 1 2 "T" none none none none
      none (some c6fileEx) "up6.pdf" 9 false 50 rfl,
   c6_no_relationship_create_amended.2 c6stB 1 2 "T" none none [] none
      c6fileEx "up6.pdf" 9 false 50 rfl rfl (by decide)⟩

/-- The variant-A search query with no other filters holds exactly on
lawyer-scoped, non-deleted documents whose title, description or tags
contain the search string case-insensitively. -/
theorem queryA_search_characterization (L : Nat) (q : String) (d : DocumentA)
    (hq : (q == "") = false) :
    queryA L none none none none (some q) d = true ↔
      d.lawyerId = L ∧ d.isDeleted = false ∧
        (containsCI d.title q = true
          ∨ (∃ ds, d.description = some ds ∧ containsCI ds q = true)
          ∨ (∃ t ∈ d.tags, containsCI t q = true)) := by
  cases hd : d.description with
  | none => simp [queryA, truthy, hq, hd, and_assoc]
  | some ds => simp [queryA, truthy, hq, hd, and_assoc, or_assoc]

/-- The variant-B search query with no other filters holds exactly on
lawyer-scoped documents whose title, description or original filename
contain the search string case-insensitively. -/
theorem queryB_search_characterization (L : Nat) (q : String) (d : DocumentB)
    (hq : (q == "") = false) :
    queryB L none none none (some q) d = true ↔
      d.lawyerId = L ∧
        (containsCI d.title q = true
          ∨ (∃ ds, d.description = some ds ∧ containsCI ds q = true)
          ∨ containsCI d.originalFileName q = true) := by
  cases hd : d.description with
  | none => simp [queryB, truthy, truthyNotAll, hq, hd, and_assoc]
  | some ds => simp [queryB, truthy, truthyNotAll, hq, hd, and_assoc, or_assoc]

/-- Counterexample to C8 as stated: a scoped, non-deleted document whose
original filename contains the search string (per the spec predicate over
title, description, original filename and tags) is absent from variant A's
search result, because getDocuments matches only title, description and
tags. -/
theorem c8_counterexample :
    specSearchMatchA "contract" c8docA = true
  ∧ c8docA ∈ c8stA.documents
  ∧ c8docA.lawyerId = 1
  ∧ c8docA.isDeleted = false
  ∧ (listA c8stA 1 none none none none (some "contract") 1 20).1.documents
      = [] := by
  refine ⟨by decide, by decide, rfl, rfl, by decide⟩

/-- C8 amended: the two variants search different field sets.  Variant A
(getDocuments) returns exactly the scoped non-deleted documents matching on
title, description or tags — not the original filename; variant B
(getLawyerDocuments) exactly those matching on title, description or
original filename — not the tags.  Each page of results is a subset of this
matching set. -/
theorem c8_search_fields_amended :
    (∀ (s : StateA) (L : Nat) (q : String) (d : DocumentA), q ≠ "" →
       (d ∈ filteredA s L none none none none (some q) ↔
         d ∈ s.documents ∧ d.lawyerId = L ∧ d.isDeleted = false ∧
           (containsCI d.title q = true
             ∨ (∃ ds, d.description = some ds ∧ containsCI ds q = true)
             ∨ (∃ t ∈ d.tags, containsCI t q = true))))
  ∧ (∀ (s : StateB) (L : Nat) (q : String) (d : DocumentB), q ≠ "" →
       (d ∈ filteredB s L none none none (some q) ↔
         d ∈ s.documents ∧ d.lawyerId = L ∧
           (containsCI d.title q = true
             ∨ (∃ ds, d.description = some ds ∧ containsCI ds q = true)
             ∨ containsCI d.originalFileName q = true)))
  ∧ (∀ (s : StateA) (L : Nat) (cid : Option Nat)
       (cat st pr se : Option String) (page limit : Nat),
       (listA s L cid cat st pr se page limit).1.documents ⊆
         filteredA s L cid cat st pr se)
  ∧ (∀ (s : StateB) (L : Nat) (cid : Option Nat) (st dt se : Option String)
       (page limit : Nat),
       (listB s L cid st dt se page limit).1.documents ⊆
         filteredB s L cid st dt se) := by
  refine ⟨?_, ?_, ?_, ?_⟩
  · intro s L q d hq
    have hq2 : (q == "") = false := by simpa using hq
    rw [filteredA, List.mem_filter,
      queryA_search_characterization L q d hq2]
  · intro s L q d hq
    have hq2 : (q == "") = false := by simpa using hq
    rw [filteredB, List.mem_filter,
      queryB_search_characterization L q d hq2]
  · intro s L cid cat st pr se page limit x hx
    simp only [listA] at hx
    exact List.drop_subset _ _ (List.take_subset _ _ hx)
  · intro s L cid st dt se page limit x hx
    simp only [listB] at hx
    exact List.drop_subset _ _ (List.take_subset _ _ hx)

/-- Witness for the amended C8: the characterization instantiated on a
concrete document whose title contains the search string. -/
theorem c8_search_fields_amended_witness :
    c8docA2 ∈ filteredA c8stA2 1 none none none none (some "contract") ↔
      c8docA2 ∈ c8stA2.documents ∧ c8docA2.lawyerId = 1 ∧
        c8docA2.isDeleted = false ∧
        (containsCI c8docA2.title "contract" = true
          ∨ (∃ ds, c8docA2.description = some ds ∧
              containsCI ds "contract" = true)
          ∨ (∃ t ∈ c8docA2.tags, containsCI t "contract" = true)) :=
  c8_search_fields_amended.1 c8stA2 1 "contract" c8docA2 (by decide)

end DocPortal
